import Mathlib

/-!
Shallow embedding of the link-mgmt REST service (src/link-api).

The relational store is modelled as lists of user and link rows; each
HTTP handler from `app/api/v1/links.py`, `app/api/v1/users.py` and the
authentication dependency from `app/api/deps.py` becomes a Lean function
from a store (plus the request data and server-generated values: fresh
UUIDs and the clock, which the code obtains from `uuid4`/`func.now()`)
to a response together with the resulting store.  UUIDs and timestamps
are modelled as `Nat`.  A handler result is `Except ApiError resp`
paired with the store after the request: an `HTTPException` raised by a
handler becomes `ApiError.http`, and a database `IntegrityError` that
escapes a handler (no handler in the source catches one) becomes
`ApiError.integrityError`, carrying the violated constraint's name.
-/

namespace LinkMgmt

/-- Row of the `users` table (`app/models/user.py`): UUID primary key,
unique indexed email, unique indexed api_key, server-defaulted
timestamps. -/
structure UserRow where
  id : Nat
  email : String
  api_key : String
  created_at : Nat
  updated_at : Nat
  deriving DecidableEq, Repr

/-- Row of the `links` table (`app/models/link.py`): UUID primary key,
user_id foreign key, required url, optional title/description/text,
server-defaulted timestamps, and the `unique_user_url` constraint on
(user_id, url). -/
structure LinkRow where
  id : Nat
  user_id : Nat
  url : String
  title : Option String
  description : Option String
  text : Option String
  created_at : Nat
  updated_at : Nat
  deriving DecidableEq, Repr

/-- The relational store: the two tables declared by the models and the
migration. -/
structure Store where
  users : List UserRow
  links : List LinkRow
  deriving DecidableEq, Repr

/-- Error outcomes of a request.  `http` is an `HTTPException` raised by
a handler (status code, detail, optional WWW-Authenticate header value);
`integrityError` is a database constraint violation raised at commit
time and not caught by any handler in the source. -/
inductive ApiError where
  | http (status : Nat) (detail : String) (wwwAuthenticate : Option String)
  | integrityError (constraint : String)
  deriving DecidableEq, Repr

/-- Request schema `LinkCreate` (`app/schemas/link.py`): url plus
optional title, description, text.  There is no owner field. -/
structure LinkCreate where
  url : String
  title : Option String
  description : Option String
  text : Option String
  deriving DecidableEq, Repr

/-- Request schema `LinkUpdate` (`app/schemas/link.py`): a `force` flag
defaulting to false and optional title, description, text.  A field the
client omits, and a field the client sends as JSON null, both
deserialize to `none`. -/
structure LinkUpdate where
  force : Bool := false
  title : Option String
  description : Option String
  text : Option String
  deriving DecidableEq, Repr

/-- Request schema `UserCreate` (`src/archive/link-api/app/schemas/user.py`):
just an email. -/
structure UserCreate where
  email : String
  deriving DecidableEq, Repr

/-- Response schema `UserRead` (`src/archive/link-api/app/schemas/user.py`):
email, id, created_at, updated_at.  It has no api_key field. -/
structure UserRead where
  email : String
  id : Nat
  created_at : Nat
  updated_at : Nat
  deriving DecidableEq, Repr

/-- Response schema `UserWithApiKey` (`src/archive/link-api/app/schemas/user.py`):
`UserRead` plus the api_key. -/
structure UserWithApiKey where
  email : String
  id : Nat
  created_at : Nat
  updated_at : Nat
  api_key : String
  deriving DecidableEq, Repr

/-- Response schema `LinkRead` (`app/schemas/link.py`): the link fields
plus id, user_id and timestamps. -/
structure LinkRead where
  url : String
  title : Option String
  description : Option String
  text : Option String
  id : Nat
  user_id : Nat
  created_at : Nat
  updated_at : Nat
  deriving DecidableEq, Repr

/-- SQLAlchemy's `Result.scalar_one_or_none` on the rows produced by a
query: `none` for an empty result, the row for a singleton result.  (On
two or more rows the real call raises `MultipleResultsFound`; every
query in this service filters on a uniquely-constrained column, so that
case is unreachable and the theorems carry the uniqueness invariant
where it matters.) -/
def scalarOneOrNone {α : Type} : List α → Option α
  | [x] => some x
  | _ => none

/-- Serialization `LinkRead.model_validate(link)` from a `links` row. -/
def LinkRead.model_validate (l : LinkRow) : LinkRead :=
  { url := l.url, title := l.title, description := l.description,
    text := l.text, id := l.id, user_id := l.user_id,
    created_at := l.created_at, updated_at := l.updated_at }

/-- Serialization `UserRead.model_validate(user)` from a `users` row:
the api_key column is not carried over. -/
def UserRead.model_validate (u : UserRow) : UserRead :=
  { email := u.email, id := u.id, created_at := u.created_at,
    updated_at := u.updated_at }

/-- Serialization `UserWithApiKey.model_validate(user)` from a `users`
row, api_key included. -/
def UserWithApiKey.model_validate (u : UserRow) : UserWithApiKey :=
  { email := u.email, id := u.id, created_at := u.created_at,
    updated_at := u.updated_at, api_key := u.api_key }

/-- Authentication dependency `get_current_user` (`app/api/deps.py`):
`select(User).where(User.api_key == x_api_key)` then
`scalar_one_or_none`; on no match, `HTTPException(401, "Invalid API key",
headers=\x7b"WWW-Authenticate": "ApiKey"\x7d)`. -/
def get_current_user (st : Store) (x_api_key : String) :
    Except ApiError UserRow :=
  match scalarOneOrNone (st.users.filter (fun u => u.api_key == x_api_key)) with
  | some user => .ok user
  | none => .error (.http 401 "Invalid API key" (some "ApiKey"))

/-- Relation `created_at`-descending between link rows, the order
produced by `order_by(Link.created_at.desc())`. -/
def createdDesc (a b : LinkRow) : Prop :=
  b.created_at ≤ a.created_at

instance : DecidableRel createdDesc :=
  fun a b => Nat.decLe b.created_at a.created_at

instance : IsTotal LinkRow createdDesc :=
  ⟨fun a b => Nat.le_total b.created_at a.created_at⟩

instance : IsTrans LinkRow createdDesc :=
  ⟨fun _ _ _ hab hbc => Nat.le_trans hbc hab⟩

/-- Query of the list handler:
`select(Link).where(Link.user_id == current_user.id).order_by(Link.created_at.desc())`
(`app/api/v1/links.py`, `list_links`). -/
def list_links_query (current_user : UserRow) (st : Store) : List LinkRow :=
  List.insertionSort createdDesc
    (st.links.filter (fun l => l.user_id == current_user.id))

/-- Handler `list_links` (`app/api/v1/links.py`): authenticate, run the
owner-scoped descending query, serialize every row. -/
def list_links (st : Store) (x_api_key : String) :
    Except ApiError (List LinkRead) × Store :=
  match get_current_user st x_api_key with
  | .error e => (.error e, st)
  | .ok current_user =>
      (.ok ((list_links_query current_user st).map LinkRead.model_validate), st)

/-- Row construction inside `create_link` (`app/api/v1/links.py`):
`Link(user_id=current_user.id, url=str(payload.url), title=payload.title,
description=payload.description, text=payload.text)` with the
server-generated id and timestamps. -/
def newLinkRow (current_user : UserRow) (payload : LinkCreate)
    (newId now : Nat) : LinkRow :=
  { id := newId, user_id := current_user.id, url := payload.url,
    title := payload.title, description := payload.description,
    text := payload.text, created_at := now, updated_at := now }

/-- Handler `create_link` (`app/api/v1/links.py`): authenticate, build a
`Link` row with `user_id := current_user.id` and the payload fields,
`db.add` + `db.commit`.  The commit enforces the table's declared
constraints (`links_pkey` on id, `unique_user_url` on (user_id, url));
the handler has no try/except, so a violation escapes as
`ApiError.integrityError` and the transaction leaves no row. -/
def create_link (st : Store) (x_api_key : String) (payload : LinkCreate)
    (newId now : Nat) : Except ApiError LinkRead × Store :=
  match get_current_user st x_api_key with
  | .error e => (.error e, st)
  | .ok current_user =>
      let link := newLinkRow current_user payload newId now
      if st.links.any (fun l => l.id == link.id) then
        (.error (.integrityError "links_pkey"), st)
      else if st.links.any (fun l => l.user_id == link.user_id && l.url == link.url) then
        (.error (.integrityError "unique_user_url"), st)
      else
        (.ok (LinkRead.model_validate link), { st with links := st.links ++ [link] })

/-- Query of the get-by-id handler:
`select(Link).where(Link.id == link_id, Link.user_id == current_user.id)`
(`app/api/v1/links.py`, `get_link`). -/
def get_link_query (link_id : Nat) (current_user : UserRow) (st : Store) :
    List LinkRow :=
  st.links.filter (fun l => l.id == link_id && l.user_id == current_user.id)

/-- Handler `get_link` (`app/api/v1/links.py`): authenticate, run the
owner-scoped lookup, 404 "Link not found" when it yields nothing,
otherwise serialize the row. -/
def get_link (st : Store) (x_api_key : String) (link_id : Nat) :
    Except ApiError LinkRead × Store :=
  match get_current_user st x_api_key with
  | .error e => (.error e, st)
  | .ok current_user =>
      match scalarOneOrNone (get_link_query link_id current_user st) with
      | none => (.error (.http 404 "Link not found" none), st)
      | some link => (.ok (LinkRead.model_validate link), st)

/-- Query of the update handler:
`select(Link).where(Link.id == link_id, Link.user_id == current_user.id)`
(`app/api/v1/links.py`, `update_link`). -/
def update_link_query (link_id : Nat) (current_user : UserRow) (st : Store) :
    List LinkRow :=
  st.links.filter (fun l => l.id == link_id && l.user_id == current_user.id)

/-- Field-assignment block of `update_link` (`app/api/v1/links.py`):
each of title/description/text is assigned from the payload exactly when
the payload value `is not None`; the `onupdate=func.now()` column
default rewrites updated_at when the row was marked dirty, i.e. when at
least one assignment ran.  The `force` payload field is never read. -/
def applyLinkUpdate (link : LinkRow) (payload : LinkUpdate) (now : Nat) :
    LinkRow :=
  { link with
    title := match payload.title with
      | some t => some t
      | none => link.title
    description := match payload.description with
      | some d => some d
      | none => link.description
    text := match payload.text with
      | some x => some x
      | none => link.text
    updated_at :=
      if payload.title.isSome || payload.description.isSome
          || payload.text.isSome then now
      else link.updated_at }

/-- Handler `update_link` (`app/api/v1/links.py`): authenticate, run the
owner-scoped lookup, 404 when it yields nothing; otherwise apply the
field-assignment block, commit, refresh and serialize. -/
def update_link (st : Store) (x_api_key : String) (link_id : Nat)
    (payload : LinkUpdate) (now : Nat) : Except ApiError LinkRead × Store :=
  match get_current_user st x_api_key with
  | .error e => (.error e, st)
  | .ok current_user =>
      match scalarOneOrNone (update_link_query link_id current_user st) with
      | none => (.error (.http 404 "Link not found" none), st)
      | some link =>
          let link' := applyLinkUpdate link payload now
          (.ok (LinkRead.model_validate link'),
           { st with
             links := st.links.map (fun l => if l.id == link.id then link' else l) })

/-- Row construction inside `create_user` (`app/api/v1/users.py`):
`User(email=payload.email, api_key=api_key)` with the server-generated
api_key (`generate_api_key()`, passed here as `generated_key`), id and
timestamps. -/
def newUserRow (payload : UserCreate) (generated_key : String)
    (newId now : Nat) : UserRow :=
  { id := newId, email := payload.email, api_key := generated_key,
    created_at := now, updated_at := now }

/-- Handler `create_user` (`app/api/v1/users.py`): existence pre-check on
the email (`HTTPException(400, "Email already registered")` when it
matches), then the new `User` row, `db.add` + `db.commit`.  The commit
enforces the `users` table's declared constraints (primary key, unique
email, unique api_key); a violation escapes — no handler catches
`IntegrityError` — and leaves no row. -/
def create_user (st : Store) (payload : UserCreate) (generated_key : String)
    (newId now : Nat) : Except ApiError UserWithApiKey × Store :=
  match scalarOneOrNone (st.users.filter (fun u => u.email == payload.email)) with
  | some _existing_user => (.error (.http 400 "Email already registered" none), st)
  | none =>
      let user := newUserRow payload generated_key newId now
      if st.users.any (fun u => u.id == user.id) then
        (.error (.integrityError "users_pkey"), st)
      else if st.users.any (fun u => u.email == user.email) then
        (.error (.integrityError "ix_users_email"), st)
      else if st.users.any (fun u => u.api_key == user.api_key) then
        (.error (.integrityError "ix_users_api_key"), st)
      else
        (.ok (UserWithApiKey.model_validate user), { st with users := st.users ++ [user] })

/-- Handler `get_me` (`app/api/v1/users.py`): authenticate and serialize
the caller through `UserRead`. -/
def get_me (st : Store) (x_api_key : String) :
    Except ApiError UserRead × Store :=
  match get_current_user st x_api_key with
  | .error e => (.error e, st)
  | .ok current_user => (.ok (UserRead.model_validate current_user), st)

/-- Storage-layer invariant of the `users` table: the unique indexes on
email and api_key hold, i.e. any two distinct rows differ in both. -/
def usersUnique (st : Store) : Prop :=
  st.users.Pairwise (fun a b => a.email ≠ b.email ∧ a.api_key ≠ b.api_key)

/-- Storage-layer invariant of the `links` table: the primary key holds,
i.e. any two distinct rows have different ids. -/
def linkIdsUnique (st : Store) : Prop :=
  st.links.Pairwise (fun a b => a.id ≠ b.id)

instance (st : Store) : Decidable (usersUnique st) :=
  inferInstanceAs (Decidable (List.Pairwise _ _))

instance (st : Store) : Decidable (linkIdsUnique st) :=
  inferInstanceAs (Decidable (List.Pairwise _ _))

/-- The 401 error raised by `get_current_user`. -/
def unauthorizedError : ApiError :=
  .http 401 "Invalid API key" (some "ApiKey")

/-- The 404 error raised by `get_link` and `update_link`. -/
def notFoundError : ApiError :=
  .http 404 "Link not found" none

/-- Concrete fixture: a first user holding API key "K". -/
def userK : UserRow :=
  { id := 1, email := "a@x.com", api_key := "K", created_at := 0, updated_at := 0 }

/-- Concrete fixture: a second user holding API key "L". -/
def userL : UserRow :=
  { id := 2, email := "b@x.com", api_key := "L", created_at := 0, updated_at := 0 }

/-- Concrete fixture: a link owned by `userK`. -/
def linkA : LinkRow :=
  { id := 10, user_id := 1, url := "https://e.com/1", title := some "A",
    description := some "B", text := some "C", created_at := 1, updated_at := 1 }

/-- Concrete fixture store: both users and `userK`'s link. -/
def storeAB : Store :=
  { users := [userK, userL], links := [linkA] }

/-- Concrete create payload for the list-ordering scenario (link L1). -/
def payUrl1 : LinkCreate :=
  { url := "https://e.com/a", title := none, description := none, text := none }

/-- Concrete create payload for the list-ordering scenario (link L2). -/
def payUrl2 : LinkCreate :=
  { url := "https://e.com/b", title := none, description := none, text := none }

/-- Concrete create payload for the list-ordering scenario (link L3). -/
def payUrl3 : LinkCreate :=
  { url := "https://e.com/c", title := none, description := none, text := none }

/-- Scenario start state: one user, no links. -/
def scenarioStore0 : Store :=
  { users := [userK], links := [] }

/-- Scenario state after creating L1 at time 11. -/
def scenarioStore1 : Store :=
  (create_link scenarioStore0 "K" payUrl1 101 11).2

/-- Scenario state after creating L2 at time 12. -/
def scenarioStore2 : Store :=
  (create_link scenarioStore1 "K" payUrl2 102 12).2

/-- Scenario state after creating L3 at time 13. -/
def scenarioStore3 : Store :=
  (create_link scenarioStore2 "K" payUrl3 103 13).2

theorem scalarOneOrNone_filter {α : Type} (p : α → Bool) (l : List α)
    (h : l.Pairwise (fun x y => ¬(p x = true ∧ p y = true))) :
    scalarOneOrNone (l.filter p) = l.find? p := by
  induction l with
  | nil => rfl
  | cons a t ih =>
      rcases List.pairwise_cons.mp h with ⟨ha, ht⟩
      by_cases hpa : p a = true
      · have hnil : t.filter p = [] := by
          refine List.filter_eq_nil_iff.mpr fun b hb hpb => ha b hb ⟨hpa, hpb⟩
        simp [List.filter_cons, hpa, hnil, scalarOneOrNone]
      · simp only [List.filter_cons, if_neg hpa, List.find?_cons,
          Bool.of_not_eq_true hpa] at *
        simpa [hpa] using ih ht

theorem find?_eq_some_of_mem {α : Type} (p : α → Bool) (l : List α) (u : α)
    (hu : u ∈ l) (hpu : p u = true)
    (h : l.Pairwise (fun x y => ¬(p x = true ∧ p y = true))) :
    l.find? p = some u := by
  induction l with
  | nil => cases hu
  | cons a t ih =>
      rcases List.pairwise_cons.mp h with ⟨ha, ht⟩
      rcases List.mem_cons.mp hu with rfl | hu'
      · simp [List.find?_cons, hpu]
      · by_cases hpa : p a = true
        · exact absurd ⟨hpa, hpu⟩ (ha u hu')
        · simpa [List.find?_cons, hpa] using ih hu' ht

theorem usersUnique_key_pairwise {st : Store} (h : usersUnique st) (key : String) :
    st.users.Pairwise
      (fun x y => ¬((x.api_key == key) = true ∧ (y.api_key == key) = true)) := by
  refine h.imp fun hxy hp => ?_
  rcases hp with ⟨hx, hy⟩
  exact hxy.2 ((beq_iff_eq.mp hx).trans (beq_iff_eq.mp hy).symm)

theorem get_current_user_ok {st : Store} {key : String} {u : UserRow}
    (hinv : usersUnique st) (hu : u ∈ st.users) (hk : u.api_key = key) :
    get_current_user st key = .ok u := by
  unfold get_current_user
  rw [scalarOneOrNone_filter _ _ (usersUnique_key_pairwise hinv key),
    find?_eq_some_of_mem (fun x => x.api_key == key) st.users u hu
      (beq_iff_eq.mpr hk) (usersUnique_key_pairwise hinv key)]

theorem get_current_user_err {st : Store} {key : String}
    (h : ∀ u ∈ st.users, u.api_key ≠ key) :
    get_current_user st key = .error unauthorizedError := by
  unfold get_current_user
  have hnil : st.users.filter (fun u => u.api_key == key) = [] :=
    List.filter_eq_nil_iff.mpr fun u hu hp => h u hu (beq_iff_eq.mp hp)
  rw [hnil]
  rfl

theorem linkIdsUnique_query_pairwise {st : Store} (h : linkIdsUnique st)
    (link_id uid : Nat) :
    st.links.Pairwise
      (fun x y => ¬((x.id == link_id && x.user_id == uid) = true ∧
                    (y.id == link_id && y.user_id == uid) = true)) := by
  refine h.imp fun hxy hp => ?_
  rcases hp with ⟨hx, hy⟩
  simp only [Bool.and_eq_true, beq_iff_eq] at hx hy
  exact hxy (hx.1.trans hy.1.symm)

theorem scalarOneOrNone_get_link_query {st : Store} (hids : linkIdsUnique st)
    (link_id : Nat) (u : UserRow) :
    scalarOneOrNone (get_link_query link_id u st) =
      st.links.find? (fun l => l.id == link_id && l.user_id == u.id) :=
  scalarOneOrNone_filter _ _ (linkIdsUnique_query_pairwise hids link_id u.id)

theorem link_find?_eq_none {st : Store} {link_id : Nat} {u : UserRow}
    (hno : ¬ ∃ l ∈ st.links, l.id = link_id ∧ l.user_id = u.id) :
    st.links.find? (fun l => l.id == link_id && l.user_id == u.id) = none := by
  refine List.find?_eq_none.mpr fun l hl hp => ?_
  simp only [Bool.and_eq_true, beq_iff_eq] at hp
  exact hno ⟨l, hl, hp.1, hp.2⟩

theorem link_find?_eq_some {st : Store} {link_id : Nat} {u : UserRow}
    {l : LinkRow} (hids : linkIdsUnique st) (hl : l ∈ st.links)
    (hid : l.id = link_id) (hown : l.user_id = u.id) :
    st.links.find? (fun l => l.id == link_id && l.user_id == u.id) = some l :=
  find?_eq_some_of_mem (fun l => l.id == link_id && l.user_id == u.id)
    st.links l hl (by simp [hid, hown])
    (linkIdsUnique_query_pairwise hids link_id u.id)

theorem scalarOneOrNone_update_link_query {st : Store} (hids : linkIdsUnique st)
    (link_id : Nat) (u : UserRow) :
    scalarOneOrNone (update_link_query link_id u st) =
      st.links.find? (fun l => l.id == link_id && l.user_id == u.id) :=
  scalarOneOrNone_filter _ _ (linkIdsUnique_query_pairwise hids link_id u.id)

theorem update_link_ok {st : Store} {key : String} {u : UserRow}
    {link : LinkRow} {link_id : Nat} (payload : LinkUpdate) (now : Nat)
    (hauth : get_current_user st key = .ok u) (hids : linkIdsUnique st)
    (hl : link ∈ st.links) (hid : link.id = link_id)
    (hown : link.user_id = u.id) :
    update_link st key link_id payload now =
      (.ok (LinkRead.model_validate (applyLinkUpdate link payload now)),
       { st with links := st.links.map fun l =>
           if l.id == link.id then applyLinkUpdate link payload now else l }) := by
  simp only [update_link, hauth]
  rw [scalarOneOrNone_update_link_query hids,
    link_find?_eq_some hids hl hid hown]

/-- Claim C1: for an authenticated caller, get-by-id succeeds exactly when
a link with the requested id exists and is owned by the caller; whenever
the link is absent, or exists but belongs to a different user, the handler
returns one and the same 404 Not Found result (`notFoundError`, never a
403 Forbidden), so a non-owned link is indistinguishable from a
nonexistent one. -/
theorem C1_get_by_id_owner_scoped (st : Store) (key : String) (u : UserRow)
    (link_id : Nat) (hauth : get_current_user st key = .ok u)
    (hids : linkIdsUnique st) :
    ((∃ l ∈ st.links, l.id = link_id ∧ l.user_id = u.id) →
       ∃ l, l ∈ st.links ∧ l.id = link_id ∧ l.user_id = u.id ∧
         get_link st key link_id = (.ok (LinkRead.model_validate l), st)) ∧
    ((¬ ∃ l ∈ st.links, l.id = link_id ∧ l.user_id = u.id) →
       get_link st key link_id = (.error notFoundError, st)) := by
  constructor
  · rintro ⟨l, hl, hid, hown⟩
    refine ⟨l, hl, hid, hown, ?_⟩
    simp only [get_link, hauth]
    rw [scalarOneOrNone_get_link_query hids,
      link_find?_eq_some hids hl hid hown]
  · intro hno
    simp only [get_link, hauth]
    rw [scalarOneOrNone_get_link_query hids, link_find?_eq_none hno]
    rfl

theorem C1_get_by_id_owner_scoped_witness :
    ∃ l, l ∈ storeAB.links ∧ l.id = 10 ∧ l.user_id = userK.id ∧
      get_link storeAB "K" 10 = (.ok (LinkRead.model_validate l), storeAB) :=
  (C1_get_by_id_owner_scoped storeAB "K" userK 10 (by rfl) (by decide)).1
    (by decide)

/-- Claim C2: the authentication boundary matches the X-API-Key header
value exactly against the stored keys.  When no user carries the key,
`get_current_user` fails with the 401 Unauthorized error advertising the
`ApiKey` scheme, every operation behind the boundary returns that same
error, and the store is returned unchanged (no operation executed).  When
a user carries the key (keys being unique), that user is bound as the
acting identity. -/
theorem C2_auth_boundary (st : Store) (key : String) :
    ((∀ u ∈ st.users, u.api_key ≠ key) →
       get_current_user st key = .error unauthorizedError ∧
       get_me st key = (.error unauthorizedError, st) ∧
       list_links st key = (.error unauthorizedError, st) ∧
       (∀ payload newId now,
         create_link st key payload newId now = (.error unauthorizedError, st)) ∧
       (∀ link_id, get_link st key link_id = (.error unauthorizedError, st)) ∧
       (∀ link_id payload now,
         update_link st key link_id payload now = (.error unauthorizedError, st))) ∧
    (usersUnique st → ∀ u ∈ st.users, u.api_key = key →
       get_current_user st key = .ok u) := by
  constructor
  · intro hno
    have h401 := get_current_user_err hno
    refine ⟨h401, ?_, ?_, ?_, ?_, ?_⟩ <;>
      simp [get_me, list_links, create_link, get_link, update_link, h401]
  · exact fun hinv u hu hk => get_current_user_ok hinv hu hk

theorem C2_auth_boundary_witness :
    (get_current_user storeAB "nokey" = .error unauthorizedError ∧
       get_me storeAB "nokey" = (.error unauthorizedError, storeAB) ∧
       list_links storeAB "nokey" = (.error unauthorizedError, storeAB) ∧
       (∀ payload newId now,
         create_link storeAB "nokey" payload newId now =
           (.error unauthorizedError, storeAB)) ∧
       (∀ link_id, get_link storeAB "nokey" link_id =
           (.error unauthorizedError, storeAB)) ∧
       (∀ link_id payload now,
         update_link storeAB "nokey" link_id payload now =
           (.error unauthorizedError, storeAB))) ∧
    get_current_user storeAB "L" = .ok userL :=
  ⟨(C2_auth_boundary storeAB "nokey").1 (by decide),
   (C2_auth_boundary storeAB "L").2 (by decide) userL (by decide) (by decide)⟩

/-- Claim C7: the ownership-scoped lookup of `update_link` is the very
same query as the one of `get_link` — the two select expressions are
equal as functions of the id, the caller and the store, the selected row
(through `scalar_one_or_none`) is the same, and `update_link` answers
404 Not Found exactly when `get_link` on the same id by the same caller
does. -/
theorem C7_update_lookup_refines_get (link_id : Nat) (current_user : UserRow)
    (st : Store) (key : String) (payload : LinkUpdate) (now : Nat) :
    update_link_query link_id current_user st =
      get_link_query link_id current_user st ∧
    scalarOneOrNone (update_link_query link_id current_user st) =
      scalarOneOrNone (get_link_query link_id current_user st) ∧
    ((update_link st key link_id payload now).1 = .error notFoundError ↔
      (get_link st key link_id).1 = .error notFoundError) := by
  refine ⟨rfl, rfl, ?_⟩
  cases hauth : get_current_user st key with
  | error e => simp [update_link, get_link, hauth]
  | ok u =>
      cases hq : scalarOneOrNone (update_link_query link_id u st) with
      | none =>
          have hq' : scalarOneOrNone (get_link_query link_id u st) = none := hq
          simp [update_link, get_link, hauth, hq, hq']
      | some link =>
          have hq' : scalarOneOrNone (get_link_query link_id u st) = some link := hq
          simp [update_link, get_link, hauth, hq, hq', notFoundError]

/-- Claim C3: updating an owned link that holds title "A", description
"B", text "C" with a payload carrying only title "X" yields title "X"
with description and text unchanged, advances updated_at, and leaves id,
user_id, url and created_at unchanged; in general a field absent from
the payload keeps its prior value and neither the URL nor the owner can
be changed by the update handler. -/
theorem C3_update_merges_only_given_fields (st : Store) (key : String)
    (u : UserRow) (link : LinkRow) (link_id now : Nat) (f : Bool)
    (hauth : get_current_user st key = .ok u) (hids : linkIdsUnique st)
    (hl : link ∈ st.links) (hid : link.id = link_id)
    (hown : link.user_id = u.id) (_htitle : link.title = some "A")
    (hdesc : link.description = some "B") (htext : link.text = some "C")
    (hnow : link.updated_at < now) :
    (∃ r st',
      update_link st key link_id
          { force := f, title := some "X", description := none, text := none }
          now = (.ok r, st') ∧
      r.title = some "X" ∧ r.description = some "B" ∧ r.text = some "C" ∧
      r.id = link.id ∧ r.user_id = link.user_id ∧ r.url = link.url ∧
      r.created_at = link.created_at ∧ link.updated_at < r.updated_at ∧
      st'.users = st.users) ∧
    (∀ payload : LinkUpdate, ∃ r st',
      update_link st key link_id payload now = (.ok r, st') ∧
      (payload.title = none → r.title = link.title) ∧
      (payload.description = none → r.description = link.description) ∧
      (payload.text = none → r.text = link.text) ∧
      r.url = link.url ∧ r.user_id = link.user_id ∧ r.id = link.id ∧
      r.created_at = link.created_at) := by
  constructor
  · refine ⟨_, _, update_link_ok _ now hauth hids hl hid hown,
      ?_, ?_, ?_, ?_, ?_, ?_, ?_, ?_, ?_⟩ <;>
      simp [applyLinkUpdate, LinkRead.model_validate, hdesc, htext, hnow]
  · intro payload
    refine ⟨_, _, update_link_ok payload now hauth hids hl hid hown,
      ?_, ?_, ?_, ?_, ?_, ?_, ?_⟩ <;>
      first
      | (intro h; simp [applyLinkUpdate, LinkRead.model_validate, h])
      | simp [applyLinkUpdate, LinkRead.model_validate]

theorem C3_update_merges_only_given_fields_witness :
    (∃ r st',
      update_link storeAB "K" 10
          { force := false, title := some "X", description := none,
            text := none } 2 = (.ok r, st') ∧
      r.title = some "X" ∧ r.description = some "B" ∧ r.text = some "C" ∧
      r.id = linkA.id ∧ r.user_id = linkA.user_id ∧ r.url = linkA.url ∧
      r.created_at = linkA.created_at ∧ linkA.updated_at < r.updated_at ∧
      st'.users = storeAB.users) ∧
    (∀ payload : LinkUpdate, ∃ r st',
      update_link storeAB "K" 10 payload 2 = (.ok r, st') ∧
      (payload.title = none → r.title = linkA.title) ∧
      (payload.description = none → r.description = linkA.description) ∧
      (payload.text = none → r.text = linkA.text) ∧
      r.url = linkA.url ∧ r.user_id = linkA.user_id ∧ r.id = linkA.id ∧
      r.created_at = linkA.created_at) :=
  C3_update_merges_only_given_fields storeAB "K" userK linkA 10 2 false
    (by rfl) (by decide) (by decide) (by decide) (by decide) (by decide)
    (by decide) (by decide) (by decide)

/-- Claim C10: the update handler can never clear title, description or
text: each resulting field equals the payload's value when that value is
present and the prior stored value otherwise, and a resulting `none`
forces both the prior value and the payload value to have been `none`.
(A field sent as JSON null deserializes to the same `none` as an omitted
field, so an explicit null behaves exactly like omission.) -/
theorem C10_update_never_clears_fields (st : Store) (key : String)
    (u : UserRow) (link : LinkRow) (link_id now : Nat) (payload : LinkUpdate)
    (hauth : get_current_user st key = .ok u) (hids : linkIdsUnique st)
    (hl : link ∈ st.links) (hid : link.id = link_id)
    (hown : link.user_id = u.id) :
    ∃ r st', update_link st key link_id payload now = (.ok r, st') ∧
      (∀ t, payload.title = some t → r.title = some t) ∧
      (payload.title = none → r.title = link.title) ∧
      (r.title = none → link.title = none ∧ payload.title = none) ∧
      (∀ d, payload.description = some d → r.description = some d) ∧
      (payload.description = none → r.description = link.description) ∧
      (r.description = none → link.description = none ∧
        payload.description = none) ∧
      (∀ x, payload.text = some x → r.text = some x) ∧
      (payload.text = none → r.text = link.text) ∧
      (r.text = none → link.text = none ∧ payload.text = none) := by
  refine ⟨_, _, update_link_ok payload now hauth hids hl hid hown,
    ?_, ?_, ?_, ?_, ?_, ?_, ?_, ?_, ?_⟩ <;>
    cases hpt : payload.title <;>
    cases hpd : payload.description <;>
    cases hpx : payload.text <;>
    simp [applyLinkUpdate, LinkRead.model_validate, hpt, hpd, hpx]

theorem C10_update_never_clears_fields_witness :
    ∃ r st', update_link storeAB "K" 10
        { force := false, title := none, description := some "D",
          text := none } 2 = (.ok r, st') ∧
      (∀ t, (none : Option String) = some t → r.title = some t) ∧
      ((none : Option String) = none → r.title = linkA.title) ∧
      (r.title = none → linkA.title = none ∧ (none : Option String) = none) ∧
      (∀ d, (some "D" : Option String) = some d → r.description = some d) ∧
      ((some "D" : Option String) = none → r.description = linkA.description) ∧
      (r.description = none → linkA.description = none ∧
        (some "D" : Option String) = none) ∧
      (∀ x, (none : Option String) = some x → r.text = some x) ∧
      ((none : Option String) = none → r.text = linkA.text) ∧
      (r.text = none → linkA.text = none ∧ (none : Option String) = none) :=
  C10_update_never_clears_fields storeAB "K" userK linkA 10 2
    { force := false, title := none, description := some "D", text := none }
    (by rfl) (by decide) (by decide) (by decide) (by decide)

/-- Claim C9: the `force` flag of the update payload has no observable
effect — for every store, caller key, link id, choice of field values and
clock, the handler's response and the final store are identical with
force true and force false. -/
theorem C9_force_flag_dead (st : Store) (key : String) (link_id : Nat)
    (t d x : Option String) (now : Nat) :
    update_link st key link_id
        { force := true, title := t, description := d, text := x } now =
      update_link st key link_id
        { force := false, title := t, description := d, text := x } now := rfl

theorem create_user_conflict {st : Store} {payload : UserCreate}
    {generated_key : String} {newId now : Nat} (hinv : usersUnique st)
    (hex : ∃ u ∈ st.users, u.email = payload.email) :
    create_user st payload generated_key newId now =
      (.error (.http 400 "Email already registered" none), st) := by
  obtain ⟨u, hu, he⟩ := hex
  have hpw : st.users.Pairwise (fun x y =>
      ¬((x.email == payload.email) = true ∧ (y.email == payload.email) = true)) :=
    hinv.imp fun hxy hp => hxy.1 ((beq_iff_eq.mp hp.1).trans (beq_iff_eq.mp hp.2).symm)
  simp only [create_user]
  rw [scalarOneOrNone_filter _ _ hpw,
    find?_eq_some_of_mem (fun x => x.email == payload.email) st.users u hu
      (beq_iff_eq.mpr he) hpw]

theorem create_user_cases (st : Store) (payload : UserCreate)
    (generated_key : String) (newId now : Nat) :
    (create_user st payload generated_key newId now).2 = st ∨
    ((create_user st payload generated_key newId now).2 =
        { st with
          users := st.users ++ [newUserRow payload generated_key newId now] } ∧
      (∀ a ∈ st.users, a.email ≠ payload.email) ∧
      (∀ a ∈ st.users, a.api_key ≠ generated_key)) := by
  cases hpre : scalarOneOrNone (st.users.filter (fun u => u.email == payload.email)) with
  | some u => left; simp [create_user, hpre]
  | none =>
      simp only [create_user, hpre, newUserRow]
      by_cases h1 : st.users.any (fun u => u.id == newId)
      · rw [if_pos h1]; left; rfl
      · rw [if_neg h1]
        by_cases h2 : st.users.any (fun u => u.email == payload.email)
        · rw [if_pos h2]; left; rfl
        · rw [if_neg h2]
          by_cases h3 : st.users.any (fun u => u.api_key == generated_key)
          · rw [if_pos h3]; left; rfl
          · rw [if_neg h3]; right
            refine ⟨rfl, fun a ha hmail => ?_, fun a ha hk => ?_⟩
            · exact h2 (List.any_eq_true.mpr ⟨a, ha, beq_iff_eq.mpr hmail⟩)
            · exact h3 (List.any_eq_true.mpr ⟨a, ha, beq_iff_eq.mpr hk⟩)

/-- Claim C5: creating a user whose email is already stored fails with
the 400 Conflict response "Email already registered" and leaves the
store (and so the user table) unchanged; and the storage-layer
uniqueness invariant — any two distinct stored users differ in email and
in API key — is preserved by every outcome of the create operation. -/
theorem C5_user_create_email_conflict (st : Store) (payload : UserCreate)
    (generated_key : String) (newId now : Nat) (hinv : usersUnique st) :
    ((∃ u ∈ st.users, u.email = payload.email) →
       create_user st payload generated_key newId now =
         (.error (.http 400 "Email already registered" none), st)) ∧
    usersUnique (create_user st payload generated_key newId now).2 := by
  refine ⟨fun hex => create_user_conflict hinv hex, ?_⟩
  rcases create_user_cases st payload generated_key newId now with h | ⟨h, hmail, hk⟩
  · rw [h]; exact hinv
  · rw [h]
    unfold usersUnique at *
    rw [List.pairwise_append]
    refine ⟨hinv, List.pairwise_singleton _ _, fun a ha b hb => ?_⟩
    rw [List.mem_singleton] at hb
    subst hb
    exact ⟨hmail a ha, hk a ha⟩

theorem C5_user_create_email_conflict_witness :
    create_user storeAB { email := "a@x.com" } "M" 3 5 =
      (.error (.http 400 "Email already registered" none), storeAB) ∧
    usersUnique (create_user storeAB { email := "c@x.com" } "M" 3 5).2 :=
  ⟨(C5_user_create_email_conflict storeAB { email := "a@x.com" } "M" 3 5
      (by decide)).1 (by decide),
   (C5_user_create_email_conflict storeAB { email := "c@x.com" } "M" 3 5
      (by decide)).2⟩

/-- Claim C6: for an authenticated caller the list operation returns the
serialized rows of exactly the caller's links — membership in the
underlying query result is equivalent to being a stored link owned by
the caller, with no pagination — ordered by created_at descending; in
particular creating L1 then L2 then L3 for one user and listing yields
[L3, L2, L1]. -/
theorem C6_list_links_owned_desc (st : Store) (key : String) (u : UserRow)
    (hauth : get_current_user st key = .ok u) :
    list_links st key =
      (.ok ((list_links_query u st).map LinkRead.model_validate), st) ∧
    (∀ l, l ∈ list_links_query u st ↔ l ∈ st.links ∧ l.user_id = u.id) ∧
    List.Sorted createdDesc (list_links_query u st) ∧
    (list_links scenarioStore3 "K").1 =
      .ok [LinkRead.model_validate (newLinkRow userK payUrl3 103 13),
           LinkRead.model_validate (newLinkRow userK payUrl2 102 12),
           LinkRead.model_validate (newLinkRow userK payUrl1 101 11)] := by
  refine ⟨by simp [list_links, hauth], ?_, ?_, by rfl⟩
  · intro l
    have hperm := List.perm_insertionSort createdDesc
      (st.links.filter (fun l => l.user_id == u.id))
    rw [list_links_query, hperm.mem_iff, List.mem_filter]
    simp [beq_iff_eq]
  · exact List.sorted_insertionSort createdDesc _

theorem C6_list_links_owned_desc_witness :
    list_links storeAB "K" =
      (.ok ((list_links_query userK storeAB).map LinkRead.model_validate),
       storeAB) ∧
    (∀ l, l ∈ list_links_query userK storeAB ↔
       l ∈ storeAB.links ∧ l.user_id = userK.id) ∧
    List.Sorted createdDesc (list_links_query userK storeAB) ∧
    (list_links scenarioStore3 "K").1 =
      .ok [LinkRead.model_validate (newLinkRow userK payUrl3 103 13),
           LinkRead.model_validate (newLinkRow userK payUrl2 102 12),
           LinkRead.model_validate (newLinkRow userK payUrl1 101 11)] :=
  C6_list_links_owned_desc storeAB "K" userK (by rfl)

theorem create_user_resp {st : Store} {payload : UserCreate}
    {generated_key : String} {newId now : Nat} {r : UserWithApiKey}
    {stOut : Store}
    (h : create_user st payload generated_key newId now = (.ok r, stOut)) :
    r = { email := payload.email, id := newId, created_at := now,
          updated_at := now, api_key := generated_key } := by
  unfold create_user at h
  split at h
  · simp at h
  · simp only [newUserRow] at h
    split at h
    · simp at h
    · split at h
      · simp at h
      · split at h
        · simp at h
        · rw [Prod.mk.injEq] at h
          have := h.1
          simp only [UserWithApiKey.model_validate, newUserRow] at this
          exact (Except.ok.inj this).symm

/-- Claim C8: the API key appears in a response only at user creation —
a successful `create_user` answers the full record whose api_key is the
freshly generated key — while `get_me` answers exactly the caller's id,
email, created_at and updated_at through `UserRead`, a shape with no
api_key field, whose value is unchanged under any change of the stored
key. -/
theorem C8_api_key_exposure (st : Store) (key : String) (u : UserRow)
    (hauth : get_current_user st key = .ok u) :
    get_me st key =
      (.ok { email := u.email, id := u.id, created_at := u.created_at,
             updated_at := u.updated_at }, st) ∧
    (∀ k1 k2 : String,
      UserRead.model_validate { u with api_key := k1 } =
        UserRead.model_validate { u with api_key := k2 }) ∧
    (∀ (st' : Store) (payload : UserCreate) (generated_key : String)
        (newId now : Nat) (r : UserWithApiKey) (stOut : Store),
      create_user st' payload generated_key newId now = (.ok r, stOut) →
      r = { email := payload.email, id := newId, created_at := now,
            updated_at := now, api_key := generated_key }) := by
  refine ⟨?_, fun k1 k2 => rfl,
    fun st' payload gk nid now r stOut h => create_user_resp h⟩
  simp [get_me, hauth, UserRead.model_validate]

theorem C8_api_key_exposure_witness :
    get_me storeAB "K" =
      (.ok { email := userK.email, id := userK.id,
             created_at := userK.created_at,
             updated_at := userK.updated_at }, storeAB) ∧
    (∀ k1 k2 : String,
      UserRead.model_validate { userK with api_key := k1 } =
        UserRead.model_validate { userK with api_key := k2 }) ∧
    (∀ (st' : Store) (payload : UserCreate) (generated_key : String)
        (newId now : Nat) (r : UserWithApiKey) (stOut : Store),
      create_user st' payload generated_key newId now = (.ok r, stOut) →
      r = { email := payload.email, id := newId, created_at := now,
            updated_at := now, api_key := generated_key }) :=
  C8_api_key_exposure storeAB "K" userK (by rfl)

/-- Claim C4, settled against the code as a divergence: the created
link's owner is indeed always the authenticated caller (`newLinkRow`
fixes user_id to the caller's id, and `LinkCreate` carries no owner
field), and a duplicate (owner, URL) create does create no row — the
store comes back unchanged — but the failure is not a 4xx client error:
the commit's `unique_user_url` violation escapes `create_link` as an
uncaught `IntegrityError`, which is no `HTTPException` of any status, so
the framework surfaces it as a 500 server error. -/
theorem C4_duplicate_create_escapes_as_integrity_error :
    (∀ (current_user : UserRow) (payload : LinkCreate) (newId now : Nat),
      (newLinkRow current_user payload newId now).user_id = current_user.id) ∧
    create_link storeAB "K"
        { url := "https://e.com/1", title := none, description := none,
          text := none } 99 7 =
      (.error (.integrityError "unique_user_url"), storeAB) ∧
    (∀ (s : Nat) (d : String) (w : Option String),
      ApiError.integrityError "unique_user_url" ≠ ApiError.http s d w) :=
  ⟨fun _ _ _ _ => rfl, by rfl, fun _ _ _ h => ApiError.noConfusion h⟩

end LinkMgmt

